import Mathlib

/-!
Verification of the privateRAG backend core: a shallow embedding in Lean 4 of

* the nonce-based challenge/response wallet authenticator
  (backend/routers/auth.py and backend/auth_utils.py),
* the wallet-derived tree sealing service (backend/encryption_utils.py)
  and its caller-side normalization
  (backend/database/repositories/document_repository.py),
* the NEAR anchoring endpoint (backend/routers/hackathon.py).

Modelling conventions, used consistently below:

* Machine time (datetime.utcnow) is a natural number of seconds.
* Byte strings are modelled as Lean String values; the python str.encode
  call (a bijection between text and its UTF-8 bytes) is the identity in
  the model.
* Library cryptographic primitives (SHA-256, PBKDF2-HMAC-SHA256, URL-safe
  base64) are not re-implemented; they enter as an explicit parameter
  bundle CryptoPrims, and theorems that need their standard
  collision-freeness state it as an explicit hypothesis.
* Fernet, an authenticated symmetric cipher, is modelled by its ideal
  functionality: a token decrypts to its plaintext under the key that
  produced it and fails authentication under every other key.
* The supabase tables (nonces, users) are association lists keyed by
  wallet address; upsert/delete on the primary key are modelled by
  prepend-after-filter and filter.
-/

namespace PrivateRAG

/-! ## JSON values

Model of the Python JSON data manipulated by json.dumps / json.loads:
dictionaries, lists, strings, numbers, booleans and null. -/

inductive Json where
  | null
  | bool (b : Bool)
  | num (n : Int)
  | str (s : String)
  | arr (elems : List Json)
  | obj (fields : List (String × Json))

/-- Python truthiness of a JSON value: None, False, 0, the empty string,
the empty list and the empty dict are falsy.  encrypt_tree guards on
`if not tree:` with exactly this semantics. -/
def Json.pyFalsy : Json → Bool
  | .null => true
  | .bool b => !b
  | .num n => n == 0
  | .str s => s == ""
  | .arr elems => elems.isEmpty
  | .obj fields => fields.isEmpty

/-- Model of Python str.lower used on wallet addresses: the character-wise
case-fold (wallet addresses are ASCII hex strings, where Char.toLower
agrees with Python lower).  Defined by a structural List.map so that it
reduces on concrete inputs; provably equal to String.toLower (lemma
pyLower_eq_toLower below). -/
def pyLower (s : String) : String :=
  ⟨s.data.map Char.toLower⟩

/-! ## Abstract cryptographic primitives

encryption_utils.py calls hashlib.sha256, PBKDF2HMAC(SHA256) and
base64.urlsafe_b64encode from the standard libraries.  The embedding keeps
them abstract: a CryptoPrims bundle supplies the three functions (bytes
modelled as String). -/

structure CryptoPrims where
  /-- sha256(x).digest(): 32 bytes, here a String. -/
  sha256 : String → String
  /-- PBKDF2HMAC(SHA256, length, salt, iterations).derive(password):
  arguments are password, salt, iterations, length. -/
  pbkdf2HmacSha256 : String → String → Nat → Nat → String
  /-- base64.urlsafe_b64encode on the derived key bytes. -/
  urlsafeB64 : String → String

/-- Standard assumption on the key-derivation pipeline: PBKDF2 is
collision-free in the password for a fixed salt (at the parameters used
by the code) and the base64 encoding is injective (it is a bijection onto
its range in reality). -/
def KdfCollisionFree (P : CryptoPrims) : Prop :=
  (∀ salt pw1 pw2, P.pbkdf2HmacSha256 pw1 salt 100000 32 =
      P.pbkdf2HmacSha256 pw2 salt 100000 32 → pw1 = pw2) ∧
  Function.Injective P.urlsafeB64

/-! ## Server secret resolution

Both auth.py (_jwt_secret) and encryption_utils.py (_get_encryption_salt)
resolve the server secret as
`getattr(settings, "SECRET_KEY", None) or settings.OPENAI_API_KEY`.
The Settings class (config.py) defines no SECRET_KEY attribute, and
OPENAI_API_KEY defaults to the empty string, so the secret may well be
empty.  Python `or` takes the right operand when the left is None or the
empty string. -/

/-- Model of `getattr(settings, "SECRET_KEY", None) or settings.OPENAI_API_KEY`:
secretKey is None (attribute absent) or a string; empty strings are falsy. -/
def effectiveSecret (secretKey : Option String) (openaiKey : String) : String :=
  match secretKey with
  | none => openaiKey
  | some s => if s = "" then openaiKey else s

/-- Model of _get_encryption_salt (encryption_utils.py lines 17-21):
first 16 bytes of sha256 of the effective server secret.  Note there is
no error path: an unset secret silently yields the digest of "". -/
def get_encryption_salt (P : CryptoPrims) (secretKey : Option String)
    (openaiKey : String) : String :=
  (P.sha256 (effectiveSecret secretKey openaiKey)).take 16

/-- Model of _derive_encryption_key (encryption_utils.py lines 24-40):
PBKDF2-HMAC-SHA256, 100000 iterations, 32-byte output, over the
case-folded wallet address, salted by get_encryption_salt, URL-safe
base64-encoded. -/
def derive_encryption_key (P : CryptoPrims) (secretKey : Option String)
    (openaiKey : String) (wallet_address : String) : String :=
  P.urlsafeB64 (P.pbkdf2HmacSha256 (pyLower wallet_address)
    (get_encryption_salt P secretKey openaiKey) 100000 32)

/-! ## Plaintext strings, Fernet tokens and stored tree strings

A Python string destined for json.loads either is the canonical
json.dumps encoding of exactly one JSON value or is not valid JSON; the
embedding separates the two cases by constructor.  A stored "tree" column
string either decodes (base64) to a Fernet token or does not; again the
two cases are constructors.  A base64-encoded Fernet token always starts
with the characters Z0FB (base64 of the 0x80 version byte), hence is
nonempty and never valid JSON. -/

inductive PlainText where
  /-- The canonical json.dumps output for j (always nonempty). -/
  | jsonOf (j : Json)
  /-- A string that is not valid JSON (json.loads raises on it). -/
  | invalid (s : String)

/-- Python emptiness test on the modelled string. -/
def PlainText.isEmptyStr : PlainText → Bool
  | .jsonOf _ => false
  | .invalid s => s == ""

/-- Ideal model of a Fernet token: it remembers the key that encrypted it
and the plaintext.  Decryption under any other key fails the HMAC check. -/
structure FernetToken where
  key : String
  body : PlainText

/-- Fernet(key).encrypt(body). -/
def fernetEncrypt (key : String) (body : PlainText) : FernetToken :=
  ⟨key, body⟩

/-- Fernet(key).decrypt(token): the plaintext if the key matches, a
raised InvalidToken (here none) otherwise. -/
def fernetDecrypt (key : String) (tok : FernetToken) : Option PlainText :=
  if tok.key = key then some tok.body else none

/-- A string held in the documents.tree column: either the base64
encoding of a Fernet token, or any other (legacy / garbage) string. -/
inductive StoredStr where
  | b64tok (tok : FernetToken)
  | plain (p : PlainText)

/-- Python emptiness test (`if not encrypted_tree:`) on a stored string;
a base64-encoded Fernet token is never empty. -/
def StoredStr.isEmptyStr : StoredStr → Bool
  | .b64tok _ => false
  | .plain p => p.isEmptyStr

/-- The empty string as a stored value: not valid JSON, empty. -/
def emptyStored : StoredStr := .plain (.invalid "")

/-- json.loads on a modelled plaintext string. -/
def json_loads : PlainText → Option Json
  | .jsonOf j => some j
  | .invalid _ => none

/-- json.loads on a stored string: a base64 Fernet blob (starting Z0FB)
is never valid JSON, a plain string parses when it is canonical JSON. -/
def json_loads_str : StoredStr → Option Json
  | .b64tok _ => none
  | .plain p => json_loads p

/-! ## Tree sealing (encryption_utils.py) -/

/-- Model of encrypt_tree (encryption_utils.py lines 43-62): a falsy tree
returns the empty string before any cipher call; otherwise the
json.dumps encoding is Fernet-encrypted under the wallet-derived key and
base64-encoded for storage. -/
def encrypt_tree (P : CryptoPrims) (secretKey : Option String)
    (openaiKey : String) (tree : Json) (wallet_address : String) : StoredStr :=
  if tree.pyFalsy then emptyStored
  else .b64tok (fernetEncrypt
    (derive_encryption_key P secretKey openaiKey wallet_address)
    (.jsonOf tree))

/-- Model of decrypt_tree (encryption_utils.py lines 65-92): an empty
input returns None at once; otherwise base64-decode, Fernet-decrypt under
the wallet-derived key and json.loads, with every failure (bad base64,
failed authentication, bad JSON) caught and converted to None. -/
def decrypt_tree (P : CryptoPrims) (secretKey : Option String)
    (openaiKey : String) (encrypted_tree : StoredStr)
    (wallet_address : String) : Option Json :=
  if encrypted_tree.isEmptyStr then none
  else
    match encrypted_tree with
    | .b64tok tok =>
      match fernetDecrypt
          (derive_encryption_key P secretKey openaiKey wallet_address) tok with
      | some pt => json_loads pt
      | none => none
    | .plain _ => none

/-! ## Caller-side normalization (document_repository.py) -/

/-- The documents.tree column value as seen by _normalize_document_result:
either already a dict or a string. -/
inductive TreeField where
  | dict (j : Json)
  | str (v : StoredStr)

/-- Model of the tree handling inside _normalize_document_result
(document_repository.py lines 17-50): a dict passes through; a string is
first decrypted when an owner wallet is available, then parsed as plain
JSON, and left as-is when both interpretations fail. -/
def normalize_document_tree (P : CryptoPrims) (secretKey : Option String)
    (openaiKey : String) (tree : TreeField)
    (owner_wallet : Option String) : TreeField :=
  match tree with
  | .dict j => .dict j
  | .str v =>
    match owner_wallet with
    | some w =>
      match decrypt_tree P secretKey openaiKey v w with
      | some d => .dict d
      | none =>
        match json_loads_str v with
        | some j => .dict j
        | none => .str v
    | none =>
      match json_loads_str v with
      | some j => .dict j
      | none => .str v

/-! ## Challenge-response authenticator (routers/auth.py, auth_utils.py)

Time is a Nat of seconds; datetime.utcnow() is the `now` parameter.
The supabase nonces table is an association list keyed by the
case-folded wallet address (its primary key); `upsert` on the key is
modelled by prepend-after-filter, `delete().eq(...)` by filter.  The
random nonce (secrets.token_hex(16), 32 hex characters, never empty) is
an explicit parameter.  Elliptic-curve signature recovery
(Account.recover_message) is an explicit parameter taking the message
and the signature and returning the recovered address, or none when
recovery raises. -/

/-- NONCE_TTL_SECONDS = 300 (auth.py line 38). -/
def NONCE_TTL_SECONDS : Nat := 300

/-- A row of the nonces table: the nonce value and its expiry instant. -/
structure NonceRow where
  nonce : String
  expires_at : Nat
deriving DecidableEq, Repr

/-- Server-side state touched by the auth router: the nonces table and
the users table (only wallet addresses matter here). -/
structure AuthState where
  nonces : List (String × NonceRow)
  users : List String
deriving DecidableEq, Repr

/-- Settings fields read by _jwt_secret: the class defines no SECRET_KEY
attribute (so it is None in the real code) and OPENAI_API_KEY defaults
to the empty string. -/
structure AuthConfig where
  SECRET_KEY : Option String
  OPENAI_API_KEY : String
deriving DecidableEq, Repr

/-- Model of _jwt_secret (auth.py lines 45-48 and auth_utils.py
lines 10-12). -/
def jwt_secret (cfg : AuthConfig) : String :=
  effectiveSecret cfg.SECRET_KEY cfg.OPENAI_API_KEY

/-- The four-hundred rejections of the verify endpoint, one per
HTTPException detail string of auth.py. -/
inductive AuthError where
  /-- detail "Nonce not found" (the spec name is ChallengeNotFound). -/
  | nonceNotFound
  /-- detail "Invalid nonce record". -/
  | invalidNonceRecord
  /-- detail "Nonce expired" (the spec name is ChallengeExpired). -/
  | nonceExpired
  /-- detail "Invalid signature". -/
  | invalidSignature
  /-- detail "Signature does not match wallet" (spec WalletMismatch). -/
  | walletMismatch
deriving DecidableEq, Repr

/-- Model of jwt.encode output: payload {sub, exp} plus the secret and
algorithm under which the HMAC-SHA256 signature was produced.  A token
verifies under a secret and algorithm exactly when they match the ones
used at signing. -/
structure SignedJwt where
  sub : String
  exp : Nat
  secret : String
  alg : String
deriving DecidableEq, Repr

/-- Body of a successful verify response. -/
structure VerifyOk where
  access_token : SignedJwt
  token_type : String
deriving DecidableEq, Repr

/-- Body of the nonce endpoint response. -/
structure NonceResponse where
  wallet_address : String
  nonce : String
deriving DecidableEq, Repr

/-- Model of _build_login_message (auth.py lines 55-56). -/
def build_login_message (wallet : String) (nonce : String) : String :=
  "Login to PrivateRAG with wallet " ++ wallet ++ ". Nonce: " ++ nonce

/-- Model of create_nonce (auth.py lines 59-75): case-fold the wallet,
draw a fresh nonce (here the freshNonce parameter), store expiry
now + 300 and upsert the row keyed by wallet address. -/
def create_nonce (now : Nat) (freshNonce : String) (st : AuthState)
    (wallet_address : String) : NonceResponse × AuthState :=
  let wallet := pyLower wallet_address
  let row : NonceRow := ⟨freshNonce, now + NONCE_TTL_SECONDS⟩
  (⟨wallet, freshNonce⟩,
   { st with nonces := (wallet, row) :: st.nonces.filter (fun p => p.1 != wallet) })

/-- Model of verify_signature (auth.py lines 78-134).  Steps, in source
order: case-fold the claimed wallet; load its nonce row (400 "Nonce not
found" when absent); reject an empty stored nonce ("Invalid nonce
record"); reject when expires_at < now ("Nonce expired"); rebuild the
login message and recover the signer ("Invalid signature" when recovery
raises); reject when the case-folded recovered address differs from the
claimed wallet ("Signature does not match wallet"); otherwise create the
user when absent, delete the nonce row, and mint a bearer JWT
{sub = wallet, exp = now + 12h} signed HS256 under the server secret. -/
def verify_signature (cfg : AuthConfig) (recover : String → String → Option String)
    (now : Nat) (st : AuthState) (wallet_address : String) (signature : String) :
    Except AuthError VerifyOk × AuthState :=
  let wallet := pyLower wallet_address
  match st.nonces.lookup wallet with
  | none => (.error .nonceNotFound, st)
  | some row =>
    if row.nonce = "" then (.error .invalidNonceRecord, st)
    else if row.expires_at < now then (.error .nonceExpired, st)
    else
      match recover (build_login_message wallet row.nonce) signature with
      | none => (.error .invalidSignature, st)
      | some recovered =>
        if pyLower recovered ≠ wallet then (.error .walletMismatch, st)
        else
          (.ok ⟨⟨wallet, now + 12 * 60 * 60, jwt_secret cfg, "HS256"⟩, "bearer"⟩,
           { nonces := st.nonces.filter (fun p => p.1 != wallet),
             users := if st.users.contains wallet then st.users
                      else st.users ++ [wallet] })

/-- Model of jwt.decode(token, secret, algorithms=["HS256"]) as called in
auth_utils.py: signature verification succeeds when secret and algorithm
match the signing ones, and PyJWT rejects an exp claim in the past. -/
def jwt_decode (secret : String) (now : Nat) (tok : SignedJwt) : Option SignedJwt :=
  if tok.secret = secret ∧ tok.alg = "HS256" ∧ ¬ tok.exp < now then some tok
  else none

/-- Model of get_current_wallet (auth_utils.py lines 19-30): decode the
bearer token (401 on any failure), reject a falsy sub claim, and return
the case-folded wallet address. -/
def get_current_wallet (cfg : AuthConfig) (now : Nat) (tok : SignedJwt) :
    Except String String :=
  match jwt_decode (jwt_secret cfg) now tok with
  | none => .error "Invalid or expired token"
  | some payload =>
    if payload.sub = "" then .error "Invalid token payload"
    else .ok (pyLower payload.sub)

/-! ## NEAR anchoring endpoint (routers/hackathon.py)

The endpoint shells out to the near CLI and inspects the completed
process: return code, stdout, stderr.  Its result is either the JSON
success body or an HTTPException carrying a status code and detail. -/

/-- A completed subprocess.run result. -/
structure ProcResult where
  returncode : Int
  stdout : String
  stderr : String
deriving DecidableEq, Repr

/-- Outcome of the upload-nova endpoint: the success body or an
HTTPException (status code, detail). -/
inductive UploadOutcome where
  | ok (cid : String) (transactionHash : String) (blockscanUrl : String)
  | httpError (status : Nat) (detail : String)
deriving DecidableEq, Repr

/-- True exactly on the success outcome. -/
def UploadOutcome.isOk : UploadOutcome → Bool
  | .ok _ _ _ => true
  | .httpError _ _ => false

/-- The literal marker searched for in the CLI diagnostic output. -/
def TX_MARKER : List Char := "Transaction ID: ".data

/-- Model of re.search(r"Transaction ID: ([a-zA-Z0-9]+)", s) on a
character list: at each position, left to right, the pattern matches when
the marker is a prefix there and at least one alphanumeric character
follows; the captured group is the maximal alphanumeric run. -/
def find_tx_id : List Char → Option String
  | [] => none
  | c :: rest =>
    if TX_MARKER.isPrefixOf (c :: rest) then
      let run := ((c :: rest).drop TX_MARKER.length).takeWhile Char.isAlphanum
      if run.isEmpty then find_tx_id rest else some ⟨run⟩
    else find_tx_id rest

/-- re.search of the transaction-id pattern over a string. -/
def extract_tx_id (s : String) : Option String :=
  find_tx_id s.data

/-- The CID hardcoded by the endpoint (hackathon.py line 78). -/
def HARDCODED_CID : String :=
  "bafkreiepmge7s7izbl272mbsgj3ejfmsswcyvgjdfth64dlmcd4e3kqafu"

/-- Model of upload_nova_cli (hackathon.py lines 20-88) as a function of
the completed CLI process.  A non-zero return code raises
HTTPException(500, "CLI Execution Failed: " + stderr); a zero return code
whose stderr contains no parsable transaction id raises
HTTPException(500, "Could not parse Transaction ID"); otherwise the
endpoint returns the hardcoded CID, the extracted transaction hash and
the explorer link.  (The outer except re-wraps the inner HTTPException;
either way the request fails with status 500.) -/
def upload_nova_cli (run : ProcResult) : UploadOutcome :=
  if run.returncode ≠ 0 then
    .httpError 500 ("CLI Execution Failed: " ++ run.stderr)
  else
    match extract_tx_id run.stderr with
    | some tx_hash =>
      .ok HARDCODED_CID tx_hash ("https://testnet.nearblocks.io/tx/" ++ tx_hash)
    | none => .httpError 500 "Could not parse Transaction ID"

/-! ## Helper lemmas -/

theorem char_toNat_ofNat_valid (n : Nat) (h : n.isValidChar) :
    (Char.ofNat n).toNat = n := by
  rw [Char.ofNat, dif_pos h]
  rfl

theorem char_toLower_idem (c : Char) : c.toLower.toLower = c.toLower := by
  unfold Char.toLower
  by_cases h : c.toNat ≥ 65 ∧ c.toNat ≤ 90
  · rw [if_pos h]
    have hv : (65 + 32 : Nat) ≤ (Char.ofNat (c.toNat + 32)).toNat := by
      rw [char_toNat_ofNat_valid]
      · omega
      · exact Or.inl (by omega)
    rw [if_neg]
    omega
  · rw [if_neg h, if_neg h]

/-- The executable case-fold of the model agrees with String.toLower. -/
theorem pyLower_eq_toLower (s : String) : pyLower s = s.toLower := by
  rw [String.toLower, String.map_eq]
  rfl

theorem pyLower_idem (s : String) : pyLower (pyLower s) = pyLower s := by
  simp only [pyLower, List.map_map]
  congr 1
  apply List.map_congr_left
  intro c _
  exact char_toLower_idem c

theorem pyLower_ne_empty (s : String) (h : s ≠ "") : pyLower s ≠ "" := by
  intro hc
  apply h
  cases s with
  | mk data =>
    cases data with
    | nil => rfl
    | cons a l =>
      have := congrArg String.data hc
      simp [pyLower] at this

theorem lookup_filter_ne (l : List (String × NonceRow)) (k : String) :
    (l.filter (fun p => p.1 != k)).lookup k = none := by
  induction l with
  | nil => rfl
  | cons p rest ih =>
    by_cases h : p.1 = k
    · simp [List.filter_cons, h, ih]
    · have hk : (k == p.1) = false := beq_eq_false_iff_ne.mpr (fun hh => h hh.symm)
      simp [List.filter_cons, h, List.lookup, hk, ih]

/-- Inversion of a successful verify call: the minted token is the 12-hour
HS256 bearer token for the case-folded wallet, the nonce row for that
wallet was deleted, and a user row for it exists afterwards. -/
theorem verify_ok_inv (cfg : AuthConfig)
    (recover : String → String → Option String) (now : Nat) (st : AuthState)
    (wa sig : String) (out : VerifyOk)
    (hok : (verify_signature cfg recover now st wa sig).1 = .ok out) :
    out = ⟨⟨(pyLower wa), now + 12 * 60 * 60, jwt_secret cfg, "HS256"⟩, "bearer"⟩ ∧
    (verify_signature cfg recover now st wa sig).2 =
      { nonces := st.nonces.filter (fun p => p.1 != (pyLower wa)),
        users := if st.users.contains (pyLower wa) then st.users
                 else st.users ++ [(pyLower wa)] } := by
  rcases h1 : st.nonces.lookup (pyLower wa) with _ | row
  · simp [verify_signature, h1] at hok
  · by_cases h2 : row.nonce = ""
    · simp [verify_signature, h1, h2] at hok
    · by_cases h3 : row.expires_at < now
      · simp [verify_signature, h1, h2, h3] at hok
      · rcases h4 : recover (build_login_message (pyLower wa) row.nonce) sig with
          _ | recovered
        · simp [verify_signature, h1, h2, h3, h4] at hok
        · by_cases h5 : (pyLower recovered) = (pyLower wa)
          · have : out =
                ⟨⟨(pyLower wa), now + 12 * 60 * 60, jwt_secret cfg, "HS256"⟩,
                  "bearer"⟩ := by
              simp [verify_signature, h1, h2, h3, h4, h5] at hok
              exact hok.symm
            refine ⟨this, ?_⟩
            simp [verify_signature, h1, h2, h3, h4, h5]
          · simp [verify_signature, h1, h2, h3, h4, h5] at hok

/-! ## Claims -/

/-- C1: a nonce is single-use.  After a verify call succeeds for a wallet,
the stored nonce record is deleted (lookup of the case-folded wallet in
the resulting nonces table is none), and a second verify call for that
wallet with the same signature, at any later time, fails with the
"Nonce not found" rejection (ChallengeNotFound). -/
theorem C1_nonce_single_use (cfg : AuthConfig)
    (recover : String → String → Option String) (now now2 : Nat)
    (st : AuthState) (wa sig : String) (out : VerifyOk)
    (hok : (verify_signature cfg recover now st wa sig).1 = .ok out) :
    (verify_signature cfg recover now st wa sig).2.nonces.lookup (pyLower wa) =
      none ∧
    (verify_signature cfg recover now2
        (verify_signature cfg recover now st wa sig).2 wa sig).1 =
      .error .nonceNotFound := by
  have hst := (verify_ok_inv cfg recover now st wa sig out hok).2
  rw [hst]
  constructor
  · exact lookup_filter_ne st.nonces (pyLower wa)
  · simp [verify_signature, lookup_filter_ne st.nonces (pyLower wa)]

/-- Witness for C1 at a concrete wallet, nonce store and recovery
function. -/
theorem C1_nonce_single_use_witness :
    (verify_signature ⟨none, "sk"⟩ (fun _ _ => some "0xAB") 0
        ⟨[("0xab", ⟨"6fa1", 300⟩)], []⟩ "0xAB" "sig").1 =
      .ok ⟨⟨"0xab", 43200, "sk", "HS256"⟩, "bearer"⟩ ∧
    (verify_signature ⟨none, "sk"⟩ (fun _ _ => some "0xAB") 7
        (verify_signature ⟨none, "sk"⟩ (fun _ _ => some "0xAB") 0
          ⟨[("0xab", ⟨"6fa1", 300⟩)], []⟩ "0xAB" "sig").2 "0xAB" "sig").1 =
      .error .nonceNotFound :=
  ⟨rfl,
   (C1_nonce_single_use ⟨none, "sk"⟩ (fun _ _ => some "0xAB") 0 7
      ⟨[("0xab", ⟨"6fa1", 300⟩)], []⟩ "0xAB" "sig"
      ⟨⟨"0xab", 43200, "sk", "HS256"⟩, "bearer"⟩ rfl).2⟩

/-- C4: for a verify call whose nonce row is present, well-formed and
unexpired and whose signature recovery succeeds: if the case-folded
recovered address differs from the case-folded claimed wallet the call
fails with WalletMismatch; otherwise it returns a credential whose
payload is sub = case-folded wallet, exp = now + 12 hours, signed
HMAC-SHA256 (HS256) under the server secret. -/
theorem C4_wallet_mismatch_or_credential (cfg : AuthConfig)
    (recover : String → String → Option String) (now : Nat) (st : AuthState)
    (wa sig : String) (row : NonceRow) (recovered : String)
    (hrow : st.nonces.lookup (pyLower wa) = some row)
    (hnonce : row.nonce ≠ "")
    (hexp : ¬ row.expires_at < now)
    (hrec : recover (build_login_message (pyLower wa) row.nonce) sig =
      some recovered) :
    ((pyLower recovered) ≠ (pyLower wa) →
      (verify_signature cfg recover now st wa sig).1 =
        .error .walletMismatch) ∧
    ((pyLower recovered) = (pyLower wa) →
      (verify_signature cfg recover now st wa sig).1 =
        .ok ⟨⟨(pyLower wa), now + 12 * 60 * 60, jwt_secret cfg, "HS256"⟩,
          "bearer"⟩) := by
  constructor
  · intro h
    simp [verify_signature, hrow, hnonce, hexp, hrec, h]
  · intro h
    simp [verify_signature, hrow, hnonce, hexp, hrec, h]

/-- Witness for C4 at a concrete matching signature. -/
theorem C4_wallet_mismatch_or_credential_witness :
    (verify_signature ⟨none, "sk"⟩ (fun _ _ => some "0xAB") 10
        ⟨[("0xab", ⟨"6fa1", 300⟩)], []⟩ "0xAB" "sig").1 =
      .ok ⟨⟨"0xab", 10 + 12 * 60 * 60, "sk", "HS256"⟩, "bearer"⟩ :=
  (C4_wallet_mismatch_or_credential ⟨none, "sk"⟩ (fun _ _ => some "0xAB") 10
      ⟨[("0xab", ⟨"6fa1", 300⟩)], []⟩ "0xAB" "sig" ⟨"6fa1", 300⟩ "0xAB" rfl
      (by decide) (by decide) rfl).2 rfl

/-- C5: a nonce issued at t0 carries expiry t0 + 300 seconds, and a
verify call at any time strictly after that expiry is rejected as
expired, whatever the presented signature and recovery function (hence
also with the correct signature). -/
theorem C5_nonce_expiry (cfg : AuthConfig)
    (recover : String → String → Option String) (t0 t : Nat)
    (fresh : String) (st : AuthState) (wa sig : String)
    (hfresh : fresh ≠ "") (ht : t0 + NONCE_TTL_SECONDS < t) :
    (create_nonce t0 fresh st wa).2.nonces.lookup (pyLower wa) =
      some ⟨fresh, t0 + 300⟩ ∧
    (verify_signature cfg recover t (create_nonce t0 fresh st wa).2 wa
        sig).1 = .error .nonceExpired := by
  have hlk : (create_nonce t0 fresh st wa).2.nonces.lookup (pyLower wa) =
      some ⟨fresh, t0 + 300⟩ := by
    simp [create_nonce, List.lookup, NONCE_TTL_SECONDS]
  refine ⟨hlk, ?_⟩
  have ht' : t0 + 300 < t := by
    simpa [NONCE_TTL_SECONDS] using ht
  simp [verify_signature, hlk, hfresh, ht']

/-- Witness for C5: issue at time 0, verify at time 301. -/
theorem C5_nonce_expiry_witness :
    (create_nonce 0 "6fa1" ⟨[], []⟩ "0xAB").2.nonces.lookup (pyLower "0xAB") =
      some ⟨"6fa1", 300⟩ ∧
    (verify_signature ⟨none, "sk"⟩ (fun _ _ => some "0xAB") 301
        (create_nonce 0 "6fa1" ⟨[], []⟩ "0xAB").2 "0xAB" "sig").1 =
      .error .nonceExpired :=
  C5_nonce_expiry ⟨none, "sk"⟩ (fun _ _ => some "0xAB") 0 301 "6fa1"
    ⟨[], []⟩ "0xAB" "sig" (by decide) (by decide)

/-- C9: mint/authenticate round trip.  For every wallet address wa (any
casing, nonempty), authenticating the bearer credential minted by a
successful verify call for wa, at any instant at which the credential is
not yet expired, yields exactly the case-folded form of wa. -/
theorem C9_mint_authenticate_roundtrip (cfg : AuthConfig)
    (recover : String → String → Option String) (now now2 : Nat)
    (st : AuthState) (wa sig : String) (out : VerifyOk)
    (hok : (verify_signature cfg recover now st wa sig).1 = .ok out)
    (hwa : wa ≠ "")
    (hlive : ¬ out.access_token.exp < now2) :
    get_current_wallet cfg now2 out.access_token = .ok (pyLower wa) := by
  have htok := (verify_ok_inv cfg recover now st wa sig out hok).1
  rw [htok] at hlive ⊢
  simp [get_current_wallet, jwt_decode, hlive, pyLower_ne_empty wa hwa,
    pyLower_idem]

/-- Witness for C9: a concrete mixed-case wallet authenticates back to
its case-folded form. -/
theorem C9_mint_authenticate_roundtrip_witness :
    get_current_wallet ⟨none, "sk"⟩ 100
      (VerifyOk.access_token
        ⟨⟨"0xab", 43200, "sk", "HS256"⟩, "bearer"⟩) = .ok (pyLower "0xAB") :=
  C9_mint_authenticate_roundtrip ⟨none, "sk"⟩ (fun _ _ => some "0xAB") 0 100
    ⟨[("0xab", ⟨"6fa1", 300⟩)], []⟩ "0xAB" "sig"
    ⟨⟨"0xab", 43200, "sk", "HS256"⟩, "bearer"⟩ rfl (by decide) (by decide)

/-- C3: key derivation is pure and deterministic.  For every primitive
bundle, server secret and wallet: the derived key is the URL-safe base64
encoding of PBKDF2-HMAC-SHA256 with 100000 iterations and 32-byte output
over the case-folded wallet, salted with the first 16 bytes of the SHA256
digest of the server secret; wallets that agree after case-folding yield
the same key, and in particular a wallet and its case-folded spelling
yield byte-identical keys.  (Determinism over repeated calls is the
purity of the Lean function.) -/
theorem C3_derive_key_deterministic (P : CryptoPrims) (sk : Option String)
    (oak w w1 w2 : String) :
    derive_encryption_key P sk oak w =
      P.urlsafeB64 (P.pbkdf2HmacSha256 (pyLower w)
        ((P.sha256 (effectiveSecret sk oak)).take 16) 100000 32) ∧
    (pyLower w1 = pyLower w2 →
      derive_encryption_key P sk oak w1 = derive_encryption_key P sk oak w2) ∧
    derive_encryption_key P sk oak (pyLower w) =
      derive_encryption_key P sk oak w := by
  refine ⟨rfl, ?_, ?_⟩
  · intro h
    simp [derive_encryption_key, h]
  · simp [derive_encryption_key, pyLower_idem]

/-- A concrete primitive bundle for witnesses: the identity in the places
whose collision-freeness the theorems assume. -/
def P0 : CryptoPrims :=
  ⟨id, fun pw _ _ _ => pw, id⟩

/-- Witness for C3: differently-cased spellings of one wallet give the
same key under a concrete primitive bundle. -/
theorem C3_derive_key_deterministic_witness :
    derive_encryption_key P0 none "" "0xAB" =
      derive_encryption_key P0 none "" "0xab" :=
  (C3_derive_key_deterministic P0 none "" "w" "0xAB" "0xab").2.1 rfl

/-- A concrete document tree for witnesses. -/
def T0 : Json :=
  .obj [("title", .str "doc"), ("nodes", .arr [.num 1, .num 2])]

/-- C2: seal/open round trip.  For every collision-free primitive bundle,
server secret, non-falsy tree T and wallets w, w2 that differ after
case-folding: opening seal(T, w) with w returns T, and opening it with
w2 returns none (the Fernet authentication check fails under the key
derived for w2). -/
theorem C2_seal_open_roundtrip (P : CryptoPrims) (hP : KdfCollisionFree P)
    (sk : Option String) (oak : String) (T : Json) (w w2 : String)
    (hT : T.pyFalsy = false) (hw : pyLower w ≠ pyLower w2) :
    decrypt_tree P sk oak (encrypt_tree P sk oak T w) w = some T ∧
    decrypt_tree P sk oak (encrypt_tree P sk oak T w) w2 = none := by
  constructor
  · simp [encrypt_tree, hT, decrypt_tree, StoredStr.isEmptyStr,
      fernetEncrypt, fernetDecrypt, json_loads]
  · have hkey : derive_encryption_key P sk oak w ≠
        derive_encryption_key P sk oak w2 := by
      intro h
      exact hw (hP.1 _ _ _ (hP.2 h))
    simp [encrypt_tree, hT, decrypt_tree, StoredStr.isEmptyStr,
      fernetEncrypt, fernetDecrypt, hkey]

/-- Witness for C2 at a concrete tree and wallet pair. -/
theorem C2_seal_open_roundtrip_witness :
    decrypt_tree P0 none "" (encrypt_tree P0 none "" T0 "0xA") "0xA" =
      some T0 ∧
    decrypt_tree P0 none "" (encrypt_tree P0 none "" T0 "0xA") "0xB" =
      none :=
  C2_seal_open_roundtrip P0 ⟨fun _ _ _ h => h, fun _ _ h => h⟩ none "" T0
    "0xA" "0xB" rfl (by decide)

/-- C6: open never raises and the caller falls back to plaintext.  For
every primitive bundle, secret and wallet: decrypt_tree of a non-token
string is none; decrypt_tree of a token sealed under a different key is
none (failed authentication is swallowed); the caller-side normalization
turns a stored plain canonical JSON encoding of a tree j into j itself,
with or without an owner wallet; and a string that neither decrypts nor
parses is left as-is. -/
theorem C6_open_total_with_plaintext_fallback (P : CryptoPrims)
    (sk : Option String) (oak w s : String) (p : PlainText)
    (tok : FernetToken) (j : Json) (owner : Option String)
    (htok : tok.key ≠ derive_encryption_key P sk oak w) :
    decrypt_tree P sk oak (.plain p) w = none ∧
    decrypt_tree P sk oak (.b64tok tok) w = none ∧
    normalize_document_tree P sk oak (.str (.plain (.jsonOf j))) owner =
      .dict j ∧
    normalize_document_tree P sk oak (.str (.plain (.invalid s))) owner =
      .str (.plain (.invalid s)) := by
  have hplain : ∀ (q : PlainText) (w' : String),
      decrypt_tree P sk oak (.plain q) w' = none := by
    intro q w'
    unfold decrypt_tree
    split
    · rfl
    · rfl
  refine ⟨hplain p w, ?_, ?_, ?_⟩
  · simp [decrypt_tree, StoredStr.isEmptyStr, fernetDecrypt, htok]
  · cases owner with
    | none => simp [normalize_document_tree, json_loads_str, json_loads]
    | some w' =>
      simp [normalize_document_tree, hplain, json_loads_str, json_loads]
  · cases owner with
    | none => simp [normalize_document_tree, json_loads_str, json_loads]
    | some w' =>
      simp [normalize_document_tree, hplain, json_loads_str, json_loads]

/-- Witness for C6 at a concrete foreign-key token, tree and garbage
string. -/
theorem C6_open_total_with_plaintext_fallback_witness :
    decrypt_tree P0 none "" (.plain (.invalid "oops")) "0xa" = none ∧
    decrypt_tree P0 none "" (.b64tok ⟨"otherkey", .jsonOf T0⟩) "0xa" =
      none ∧
    normalize_document_tree P0 none "" (.str (.plain (.jsonOf T0)))
      (some "0xa") = .dict T0 ∧
    normalize_document_tree P0 none "" (.str (.plain (.invalid "oops")))
      (some "0xa") = .str (.plain (.invalid "oops")) :=
  C6_open_total_with_plaintext_fallback P0 none "" "0xa" "oops"
    (.invalid "oops") ⟨"otherkey", .jsonOf T0⟩ T0 (some "0xa") (by decide)

/-- C10: the empty tree does not round-trip.  Sealing a falsy (empty or
absent) tree returns the empty string sentinel before any cipher call,
opening the empty string returns none at the emptiness guard, and hence
open(seal(empty, w), w) is none rather than the empty tree, for every
wallet. -/
theorem C10_empty_tree_no_roundtrip (P : CryptoPrims) (sk : Option String)
    (oak w : String) (tree : Json) (hT : tree.pyFalsy = true) :
    encrypt_tree P sk oak tree w = emptyStored ∧
    decrypt_tree P sk oak emptyStored w = none ∧
    decrypt_tree P sk oak (encrypt_tree P sk oak tree w) w = none := by
  refine ⟨by simp [encrypt_tree, hT], ?_, ?_⟩
  · simp [decrypt_tree, emptyStored, StoredStr.isEmptyStr,
      PlainText.isEmptyStr]
  · simp [encrypt_tree, hT, decrypt_tree, emptyStored,
      StoredStr.isEmptyStr, PlainText.isEmptyStr]

/-- Witness for C10 at the empty dict and a concrete wallet. -/
theorem C10_empty_tree_no_roundtrip_witness :
    encrypt_tree P0 none "" (.obj []) "0xa" = emptyStored ∧
    decrypt_tree P0 none "" emptyStored "0xa" = none ∧
    decrypt_tree P0 none "" (encrypt_tree P0 none "" (.obj []) "0xa")
      "0xa" = none :=
  C10_empty_tree_no_roundtrip P0 none "" "0xa" (.obj []) rfl

/-- C7 counterexample: at a concrete anchoring failure (non-zero CLI exit
code) the endpoint raises HTTPException(500), a request failure, instead
of returning a degraded success result carrying a failure marker. -/
theorem C7_counterexample :
    upload_nova_cli ⟨1, "", "boom"⟩ =
      .httpError 500 "CLI Execution Failed: boom" ∧
    (upload_nova_cli ⟨1, "", "boom"⟩).isOk = false :=
  ⟨rfl, rfl⟩

/-- C7 amended: anchoring failure is surfaced as an HTTP 500 request
failure, not converted into a degraded success.  A non-zero exit code
raises HTTPException(500, "CLI Execution Failed: " + stderr); a zero exit
code whose output contains no parsable transaction id raises
HTTPException(500, "Could not parse Transaction ID"); only when a
transaction id parses does the endpoint return success, carrying the
hardcoded CID, the id and the explorer link. -/
theorem C7_anchor_failure_raises (r : ProcResult) :
    (r.returncode ≠ 0 →
      upload_nova_cli r =
        .httpError 500 ("CLI Execution Failed: " ++ r.stderr)) ∧
    (r.returncode = 0 → extract_tx_id r.stderr = none →
      upload_nova_cli r = .httpError 500 "Could not parse Transaction ID") ∧
    (∀ tx, r.returncode = 0 → extract_tx_id r.stderr = some tx →
      upload_nova_cli r =
        .ok HARDCODED_CID tx ("https://testnet.nearblocks.io/tx/" ++ tx)) := by
  refine ⟨?_, ?_, ?_⟩
  · intro h
    simp [upload_nova_cli, h]
  · intro h hparse
    simp [upload_nova_cli, h, hparse]
  · intro tx h hparse
    simp [upload_nova_cli, h, hparse]

/-- Witness for the amended C7 at a concrete failed CLI run. -/
theorem C7_anchor_failure_raises_witness :
    upload_nova_cli ⟨1, "", "err"⟩ =
      .httpError 500 ("CLI Execution Failed: " ++ "err") :=
  (C7_anchor_failure_raises ⟨1, "", "err"⟩).1 (by decide)

/-- C8: with the server secret unset (no SECRET_KEY attribute and
OPENAI_API_KEY defaulting to the empty string) the code does not fail
fast: the effective secret is the empty string and key derivation
silently proceeds, producing the weak empty-secret salt
sha256("")[:16] and a key derived from it.  The source has no error path
here at all, contradicting the claim. -/
theorem C8_unset_secret_silently_derives (P : CryptoPrims) :
    effectiveSecret none "" = "" ∧
    get_encryption_salt P none "" = (P.sha256 "").take 16 ∧
    derive_encryption_key P none "" "0xAB" =
      P.urlsafeB64 (P.pbkdf2HmacSha256 (pyLower "0xAB")
        ((P.sha256 "").take 16) 100000 32) :=
  ⟨rfl, rfl, rfl⟩

end PrivateRAG
